import Mathlib

/-!
Verification development for the SmartSim combinatorial generation engine
(`smartsim/entity/strategies.py`, `smartsim/entity/param_data_class.py`,
`smartsim/entity/_new_ensemble.py`).

Python dictionaries are modelled as insertion-ordered association lists,
Python exceptions as an `Except` error channel whose error type enumerates
the distinct raise sites of the embedded code (labelled with the error
taxonomy names used by the specification; each constructor's comment names
the concrete Python exception raised at that site).
-/

namespace SmartSim

/-- Error channel for the embedded Python code.  Each constructor stands for
one concrete raise site (or built-in Python exception) of the source. -/
inductive PyError where
  /-- Python `AttributeError`: an attribute access such as `x.values` on an
  object (for example an `int`) that has no such attribute, or a module
  attribute (such as `strategies.resolve_combination`) that does not exist. -/
  | attributeError (attr : String)
  /-- Python `ValueError` raised by `itertools.islice` when its stop argument
  is negative. -/
  | isliceValueError
  /-- The `ValueError` raised by `strategies.resolve` for an unregistered
  strategy name (spec taxonomy name: `StrategyNotFoundError`). -/
  | strategyNotFoundError (name : String)
  /-- The `ValueError` raised by `strategies._register` on a name collision
  (spec taxonomy name: `DuplicateStrategyError`). -/
  | duplicateStrategyError (name : String)
  /-- `smartsim.error.errors.UserStrategyError` raised by the sanitizing
  wrapper; carries `str(fn)` of the offending callable. -/
  | userStrategyError (fn : String)
  /-- The `ValueError` raised by `Ensemble.as_jobs` when the ensemble has no
  members (spec taxonomy name: `EmptyEnsembleError`). -/
  | emptyEnsembleError
deriving DecidableEq, Repr

/-- A file-parameter permutation: one `dict[str, str]` assignment. -/
abbrev FilePerm := List (String × String)

/-- An exe-arg permutation: one `dict[str, list[str]]` assignment. -/
abbrev ExePerm := List (String × List String)

/-- The `ParamSet` dataclass of `param_data_class.py`.  The fields are
`Option`-valued because `step_values` builds `ParamSet`s through
`itertools.zip_longest`, whose fill value is Python `None`; `none` models
`None`, `some d` models an actual dict. -/
structure ParamSet where
  params : Option FilePerm
  exe_args : Option ExePerm
deriving DecidableEq, Repr

/-- A file-parameter space: `Mapping[str, Sequence[str]]` in declaration
order. -/
abbrev FileSpace := List (String × List String)

/-- An exe-arg parameter space: `Mapping[str, Sequence[Sequence[str]]]`. -/
abbrev ExeSpace := List (String × List (List String))

/-- Python list slicing `l[:n]` for an `int` stop `n`: for `0 ≤ n` the first
`n` elements, for `n < 0` all but the last `-n` elements (clamped at the
empty list). -/
def pySliceTo (n : Int) (l : List α) : List α :=
  if 0 ≤ n then l.take n.toNat else l.take ((l.length + n).toNat)

/-- Python `itertools.islice(it, n)` for an `int` stop `n`: raises
`ValueError` when `n` is negative, otherwise yields the first `n` elements. -/
def pyIslice (n : Int) (l : List α) : Except PyError (List α) :=
  if n < 0 then Except.error PyError.isliceValueError
  else Except.ok (l.take n.toNat)

/-- Python `itertools.product(*lists)` in standard cartesian-product order
(first iterable outermost); `product()` of zero iterables yields exactly one
empty tuple. -/
def listProd : List (List α) → List (List α)
  | [] => [[]]
  | vs :: rest => vs.flatMap fun v => (listProd rest).map fun choice => v :: choice

/-- The `dict(zip(keys, permutation))` comprehension over
`itertools.product(*space.values())`: all concrete single-valued assignments
of a parameter space, in product order. -/
def allPermDicts (space : List (String × List α)) : List (List (String × α)) :=
  (listProd (space.map Prod.snd)).map fun choice =>
    (space.map Prod.fst).zip choice

/-- Length of Python `zip(*lists)`: zero for zero iterables, otherwise the
minimum of the lengths. -/
def pyZipLen : List (List α) → Nat
  | [] => 0
  | l :: ls => ls.foldl (fun acc x => min acc x.length) l.length

/-- The `dict(zip(space, step))` comprehension over `zip(*space.values())`:
the i-th dict maps every key of the space to the i-th entry of its value
sequence.  `d` is a type-level default never reached because every index is
below every value-sequence length. -/
def stepDicts (d : α) (space : List (String × List α)) :
    List (List (String × α)) :=
  (List.range (pyZipLen (space.map Prod.snd))).map fun i =>
    space.map fun kv => (kv.1, kv.2.getD i d)

/-- Python `itertools.zip_longest(l1, l2)` with fill value `None`. -/
def zipLongest : List α → List β → List (Option α × Option β)
  | [], bs => bs.map fun b => (none, some b)
  | a :: as, [] => (some a, none) :: zipLongest as []
  | a :: as, b :: bs => (some a, some b) :: zipLongest as bs

/-- `strategies.create_all_permutations` (registered as `"all_perm"`): each
axis is expanded to all product-order assignments and sliced to
`[:_n_permutations]`, the two slices are crossed (file axis outer), and the
cross is truncated with `itertools.islice(_, _n_permutations)`. -/
def create_all_permutations (file_params : FileSpace)
    (exe_arg_params : ExeSpace) (n : Int) : Except PyError (List ParamSet) :=
  let param_zip := pySliceTo n (allPermDicts file_params)
  let exe_arg_zip := pySliceTo n (allPermDicts exe_arg_params)
  let combinations := param_zip.flatMap fun fp =>
    exe_arg_zip.map fun ea => ParamSet.mk (some fp) (some ea)
  pyIslice n combinations

/-- `strategies.step_values` (registered as `"step"`): each axis is stepped
positionally (`zip(*values)`) and sliced to `[:_n_permutations]`, the two are
paired with `itertools.zip_longest` (`None` fill), and the result is
truncated with `itertools.islice(_, _n_permutations)`. -/
def step_values (params : FileSpace) (exe_args : ExeSpace) (n : Int) :
    Except PyError (List ParamSet) :=
  let param_zip := pySliceTo n (stepDicts "" params)
  let exe_arg_zip := pySliceTo n (stepDicts [] exe_args)
  pyIslice n ((zipLongest param_zip exe_arg_zip).map fun ab =>
    ParamSet.mk ab.1 ab.2)

/-- `strategies.random_permutations` (registered as `"random"`): computes
`create_all_permutations` and, when `0 < n_permutations < len(result)`,
replaces the result with `random.sample(result, n_permutations)`.  The
sampler is an explicit parameter standing for `random.sample`, so theorems
about this function quantify over every possible sampling outcome. -/
def random_permutations (sampler : List ParamSet → Int → List ParamSet)
    (params : FileSpace) (exe_args : ExeSpace) (n : Int) :
    Except PyError (List ParamSet) := do
  let permutations ← create_all_permutations params exe_args n
  if 0 < n ∧ n < (permutations.length : Int) then
    pure (sampler permutations n)
  else
    pure permutations

/-- Tags naming the three built-in strategy functions of `strategies.py`. -/
inductive StrategyTag where
  | allPerm
  | stepTag
  | randomTag
deriving DecidableEq, Repr

/-- The body of the `_impl` closure of `strategies._register(name)`, over an
explicit registry state (the module-level `_REGISTERED_STRATEGIES` dict,
modelled as an insertion-ordered association list): raises `ValueError` when
`name` is already registered (before any mutation), otherwise inserts the
strategy at the end.  Polymorphic in the stored callable. -/
def _register (name : String) (fn : α) (reg : List (String × α)) :
    Except PyError (List (String × α)) :=
  if (reg.map Prod.fst).contains name then
    Except.error (PyError.duplicateStrategyError name)
  else
    Except.ok (reg ++ [(name, fn)])

/-- The module-level `_REGISTERED_STRATEGIES` table after import: the three
`@_register(...)` decorators run in source order. -/
def _REGISTERED_STRATEGIES : List (String × StrategyTag) :=
  [("all_perm", StrategyTag.allPerm), ("step", StrategyTag.stepTag),
    ("random", StrategyTag.randomTag)]

/-- The string branch of `strategies.resolve`: a registered name resolves to
the registered built-in, an unregistered one raises `ValueError` (spec
taxonomy: `StrategyNotFoundError`).  The callable branch of `resolve` (a
user-supplied strategy wrapped by `_make_sanitized_custom_strategy`) is
modelled separately by `_make_sanitized_custom_strategy` below. -/
def resolve (strategy : String) : Except PyError StrategyTag :=
  match _REGISTERED_STRATEGIES.lookup strategy with
  | some tag => Except.ok tag
  | none => Except.error (PyError.strategyNotFoundError strategy)

/-- One element of the Python value a user strategy may return: a `ParamSet`
instance, a mapping (the legacy permutation-only shape), or any other
object. -/
inductive PyRetElem where
  | paramSetElem (p : ParamSet)
  | mappingElem (m : FilePerm)
  | otherElem
deriving DecidableEq, Repr

/-- The Python value a user strategy may return: a `list`, a non-`list`
sequence (for example a tuple), or a non-sequence object. -/
inductive PyRet where
  | pyList (xs : List PyRetElem)
  | pySeq (xs : List PyRetElem)
  | nonSeq
deriving DecidableEq, Repr

/-- Whether an element passes the wrapper's `isinstance(_, ParamSet)` check. -/
def PyRetElem.isParamSet : PyRetElem → Bool
  | .paramSetElem _ => true
  | _ => false

/-- Extract the `ParamSet`s of a list whose elements all passed the
`isinstance` check. -/
def extractParamSets (xs : List PyRetElem) : List ParamSet :=
  xs.filterMap fun e => match e with
    | .paramSetElem p => some p
    | _ => none

/-- The `_impl` closure of `strategies._make_sanitized_custom_strategy(fn)`,
applied to the outcome of calling the wrapped user callable (`Except.error e`
models the call raising the Python exception `e`, given as its repr string):
any exception is re-raised as `UserStrategyError(str(fn))`, and a returned
value that is not a `list` whose every element is a `ParamSet` raises the
same `UserStrategyError`. -/
def _make_sanitized_custom_strategy (fnRepr : String)
    (callResult : Except String PyRet) : Except PyError (List ParamSet) :=
  match callResult with
  | Except.error _ => Except.error (PyError.userStrategyError fnRepr)
  | Except.ok (PyRet.pyList xs) =>
      if xs.all PyRetElem.isParamSet then Except.ok (extractParamSets xs)
      else Except.error (PyError.userStrategyError fnRepr)
  | Except.ok (PyRet.pySeq _) => Except.error (PyError.userStrategyError fnRepr)
  | Except.ok PyRet.nonSeq => Except.error (PyError.userStrategyError fnRepr)

/-- Whether an element is a `ParamSet` or (the legacy permutation-only
shape) a mapping. -/
def PyRetElem.isParamSetOrMapping : PyRetElem → Bool
  | .paramSetElem _ => true
  | .mappingElem _ => true
  | .otherElem => false

/-- The condition under which claim C4 requires a `UserStrategyError`: the
user callable raised, or its return value is not a sequence whose every
element is a `ParamSet` or (legacy shape) a mapping. -/
def claimBadReturn : Except String PyRet → Bool
  | Except.error _ => true
  | Except.ok (PyRet.pyList xs) => ! xs.all PyRetElem.isParamSetOrMapping
  | Except.ok (PyRet.pySeq xs) => ! xs.all PyRetElem.isParamSetOrMapping
  | Except.ok PyRet.nonSeq => true

/-- The `Ensemble` object of `_new_ensemble.py` after `__init__` has
normalized its arguments (the file-staging, mock and settings collaborators
the claims never touch are omitted). -/
structure Ensemble where
  name : String
  exe : String
  exe_args : List String
  parameters : FileSpace
  exe_arg_parameters : ExeSpace
  permutation_strategy : String
  max_permutations : Int
  replicas : Nat

/-- `Ensemble.__init__`: `None` (and, by Python truthiness, empty) parameter
mappings are stored as `{}`, `exe_args=None` as `[]`. -/
def Ensemble.init (name exe : String) (exe_args : Option (List String))
    (parameters : Option FileSpace) (exe_arg_parameters : Option ExeSpace)
    (permutation_strategy : String) (max_permutations : Int)
    (replicas : Nat) : Ensemble :=
  { name := name
    exe := exe
    exe_args := exe_args.getD []
    parameters := parameters.getD []
    exe_arg_parameters := exe_arg_parameters.getD []
    permutation_strategy := permutation_strategy
    max_permutations := max_permutations
    replicas := replicas }

/-- The call `perm(space, max_permutations)` made on line 74 (and 77) of
`_new_ensemble.py`: the resolved built-in strategy is a THREE-parameter
function, so the mapping binds to its first parameter, the `int`
`max_permutations` binds to `exe_arg_params`/`exe_args`, and
`_n_permutations` keeps its default `0`.  Each built-in first computes its
file-axis intermediate (pure, sliced with `[:0]`, discarded) and then
evaluates `exe_arg_params.values()` on the `int`, raising
`AttributeError("values")`; `random_permutations` reaches the same point
through its inner `create_all_permutations(params, n_permutations, 0)`
call. -/
def permCallOnIntSecondArg [Inhabited α] (strat : StrategyTag)
    (space : List (String × List α)) (_max_permutations : Int) :
    Except PyError (List ParamSet) :=
  match strat with
  | StrategyTag.allPerm =>
      let _param_zip := pySliceTo 0 (allPermDicts space)
      Except.error (PyError.attributeError "values")
  | StrategyTag.stepTag =>
      let _param_zip := pySliceTo 0 (stepDicts default space)
      Except.error (PyError.attributeError "values")
  | StrategyTag.randomTag =>
      let _param_zip := pySliceTo 0 (allPermDicts space)
      Except.error (PyError.attributeError "values")

/-- `Ensemble._create_applications`: resolves the permutation strategy, then
calls it once per axis as `perm(space, self.max_permutations)` (see
`permCallOnIntSecondArg`).  Both calls raise for every built-in strategy, so
the `[{}]` fallbacks of lines 75/78 (pure, cannot raise), the
`strategies.resolve_combination(test)` call of line 79 (the `strategies`
module has no such attribute, hence `AttributeError`), and the member
construction of lines 80-98 are all unreachable; the final error models the
line 79 attribute lookup for any strategy call that were to return. -/
def Ensemble._create_applications (e : Ensemble) :
    Except PyError (List ParamSet) := do
  let perm ← resolve e.permutation_strategy
  let _file_param_permutations ← permCallOnIntSecondArg perm e.parameters
    e.max_permutations
  let _exe_arg_permutations ← permCallOnIntSecondArg perm e.exe_arg_parameters
    e.max_permutations
  Except.error (PyError.attributeError "resolve_combination")

/-- Opaque launch settings handed to `as_jobs` (external collaborator). -/
abbrev LaunchSettings := String

/-- The `_mock.Job(app, settings)` pair produced by `as_jobs`; the
application slot holds the materialized `ParamSet`-bearing member. -/
structure Job where
  app : ParamSet
  settings : LaunchSettings
deriving DecidableEq, Repr

/-- `Ensemble.as_jobs`: materializes the members, raises `ValueError` (spec
taxonomy: `EmptyEnsembleError`) when there are none, and otherwise binds
every member to the given settings. -/
def Ensemble.as_jobs (e : Ensemble) (settings : LaunchSettings) :
    Except PyError (List Job) := do
  let apps ← e._create_applications
  if apps.isEmpty then
    Except.error PyError.emptyEnsembleError
  else
    Except.ok (apps.map fun a => Job.mk a settings)

/-- The replication expression of `_create_applications` lines 81-83:
`itertools.chain.from_iterable(itertools.repeat(p, replicas) for p in ps)`. -/
def replicateParamSets (replicas : Nat) (ps : List ParamSet) : List ParamSet :=
  (ps.map fun p => List.replicate replicas p).flatten

/-- One materialized member.  Modelled from the spec: the constructor of
`smartsim.entity.model.Application` is not under `src/`, so per §4.4 step 5
each member is named `f"{ensemble.name}-{i}"` and binds a deep, independent
copy of its `ParamSet`'s contents; the deep copy is modelled by a fresh
`storeId` (the allocation of a new storage cell), distinct for every
member, alongside the copied values. -/
structure MemberApp where
  name : String
  params : Option FilePerm
  params_as_args : Option ExePerm
  storeId : Nat
deriving DecidableEq, Repr

/-- Member construction at sequential indices starting from `i` (the
`enumerate` loop of §4.4 step 5); each member's `storeId` is its index,
modelling that every binding deep-copies into freshly allocated storage. -/
def bindMembersAux (ensName : String) (i : Nat) :
    List ParamSet → List MemberApp
  | [] => []
  | ps :: rest =>
      MemberApp.mk (ensName ++ "-" ++ toString i) ps.params ps.exe_args i ::
        bindMembersAux ensName (i + 1) rest

/-- Modelled from the spec: materialization step 5 of §4.4 — one member per
replicated `ParamSet`, at sequential index starting at 0, with an
independent deep copy (fresh `storeId`) of the `ParamSet` contents. -/
def bindMembers (ensName : String) (pss : List ParamSet) : List MemberApp :=
  bindMembersAux ensName 0 pss

end SmartSim

namespace SmartSim

/-- Documentation of the all_perm expansion on the docstring's own example:
product order over declaration order of the mapping. -/
theorem create_all_permutations_docstring_example :
    (create_all_permutations [("A", ["1", "2"]), ("B", ["3", "4"])] [] 10).map
      (List.map ParamSet.params) =
    Except.ok [some [("A", "1"), ("B", "3")], some [("A", "1"), ("B", "4")],
      some [("A", "2"), ("B", "3")], some [("A", "2"), ("B", "4")]] := rfl

/-- The 2x2 file-parameter space of the spec's concrete scenarios. -/
def spamEggsParams : FileSpace := [("SPAM", ["a", "b"]), ("EGGS", ["c", "d"])]

/-- The 2x2 exe-arg parameter space of the spec's concrete scenarios. -/
def exeArgsSpace : ExeSpace :=
  [("EXE", [["a"], ["b", "c"]]), ("ARGS", [["d"], ["e", "f"]])]

/-- C1: the concrete 2x2/2x2 scenario with strategy all_perm, budget 30 and
one replica.  The strategy proper, called with its three arguments, does
yield 16 parameter sets; but `Ensemble._create_applications` calls the
strategy as `perm(space, max_permutations)`, binding the integer budget to
the strategy's `exe_arg_params` parameter, so materialization raises
`AttributeError` on `(30).values()` instead of producing 16 members (the
repository's own test asserts 16 jobs for these inputs). -/
theorem c1_concrete_scenario_crashes_instead_of_16_jobs :
    (create_all_permutations spamEggsParams exeArgsSpace 30).map List.length =
      Except.ok 16 ∧
    (Ensemble.init "test_ensemble" "echo" (some ["hello", "world"])
        (some spamEggsParams) (some exeArgsSpace) "all_perm" 30
        1)._create_applications =
      Except.error (PyError.attributeError "values") :=
  ⟨rfl, rfl⟩

/-- C2: an empty parameter space must expand to exactly one permutation, the
empty assignment, for every budget — but with budget 0 (the constructor's
default) `create_all_permutations` slices its axes with `[:0]` and returns
zero permutations, and an ensemble with both spaces `None` and one replica
raises `AttributeError` inside `_create_applications` instead of
materializing one job. -/
theorem c2_empty_space_zero_perms_and_materialization_crash :
    create_all_permutations [] [] 0 = Except.ok [] ∧
    (Ensemble.init "test_ensemble" "echo" (some ["hello", "world"]) none none
        "all_perm" 0 1)._create_applications =
      Except.error (PyError.attributeError "values") :=
  ⟨rfl, rfl⟩

/-- C3: with `max_permutations` at or below 0 the all_perm and step
strategies are claimed to apply no truncation — but at budget 0 both return
the empty list even though 16 permutations are available at budget 30, and a
negative budget raises `ValueError` from `itertools.islice`. -/
theorem c3_nonpositive_budget_truncates_to_nothing :
    (create_all_permutations spamEggsParams exeArgsSpace 30).map List.length =
      Except.ok 16 ∧
    create_all_permutations spamEggsParams exeArgsSpace 0 = Except.ok [] ∧
    step_values spamEggsParams exeArgsSpace 0 = Except.ok [] ∧
    create_all_permutations spamEggsParams exeArgsSpace (-1) =
      Except.error PyError.isliceValueError :=
  ⟨rfl, rfl, rfl, rfl⟩

/-- C8: `as_jobs` on the repository's own zero-member test configuration
(strategy random, budget 1, replicas 0) is claimed (and tested) to fail with
the empty-ensemble error — but `_create_applications` raises
`AttributeError` from the misbound strategy call before the member-count
check is ever reached. -/
theorem c8_as_jobs_replicas_zero_raises_attribute_error :
    (Ensemble.init "test_ensemble" "echo" (some ["hello", "world"])
        (some spamEggsParams) (some exeArgsSpace) "random" 1 0).as_jobs
      "local" = Except.error (PyError.attributeError "values") :=
  rfl

/-- Helper: a successful `create_all_permutations` call has a non-negative
budget and returns at most `n` parameter sets (the final
`itertools.islice(_, n)` truncation). -/
theorem create_all_permutations_ok_length (fp : FileSpace) (ep : ExeSpace)
    (n : Int) (ps : List ParamSet)
    (h : create_all_permutations fp ep n = Except.ok ps) :
    0 ≤ n ∧ (ps.length : Int) ≤ n := by
  unfold create_all_permutations pyIslice at h
  by_cases hn : n < 0
  · rw [if_pos hn] at h
    exact absurd h (by simp)
  · rw [if_neg hn] at h
    have hps := Except.ok.inj h
    refine ⟨by omega, ?_⟩
    rw [← hps]
    have hle := List.length_take_le n.toNat
      ((pySliceTo n (allPermDicts fp)).flatMap fun fpd =>
        (pySliceTo n (allPermDicts ep)).map fun ea =>
          ParamSet.mk (some fpd) (some ea))
    omega

/-- C10: for every sampler, every pair of parameter spaces and every budget,
`random_permutations` returns exactly the result of
`create_all_permutations`: the all_perm result is already truncated to at
most `n` elements whenever `n` is positive, so the without-replacement
sampling branch is unreachable and the random strategy is deterministic. -/
theorem c10_random_permutations_equals_all_perm
    (sampler : List ParamSet → Int → List ParamSet) (params : FileSpace)
    (exe_args : ExeSpace) (n : Int) :
    random_permutations sampler params exe_args n =
      create_all_permutations params exe_args n := by
  unfold random_permutations
  cases h : create_all_permutations params exe_args n with
  | error e => rfl
  | ok ps =>
      have hlen := create_all_permutations_ok_length params exe_args n ps h
      have hcond : ¬ (0 < n ∧ n < (ps.length : Int)) := by omega
      change (if 0 < n ∧ n < (ps.length : Int) then
          pure (sampler ps n) else pure ps : Except PyError (List ParamSet)) =
        Except.ok ps
      rw [if_neg hcond]
      rfl

/-- Helper: an element that passes the `isinstance(_, ParamSet)` check also
counts as a ParamSet-or-mapping element. -/
theorem all_paramSet_imp_all_psOrMap (xs : List PyRetElem)
    (h : xs.all PyRetElem.isParamSet = true) :
    xs.all PyRetElem.isParamSetOrMapping = true := by
  rw [List.all_eq_true] at h ⊢
  intro x hx
  have hx' := h x hx
  cases x <;> simp_all [PyRetElem.isParamSet, PyRetElem.isParamSetOrMapping]

/-- C4: whenever a caller-supplied strategy raises any exception, or returns
anything other than a sequence of well-formed `ParamSet`s (or, for the
legacy shape, mappings), the sanitizing wrapper raises `UserStrategyError`
carrying the offending callable's repr — never the original exception. -/
theorem c4_sanitizer_raises_user_strategy_error (fnRepr : String)
    (callResult : Except String PyRet)
    (h : claimBadReturn callResult = true) :
    _make_sanitized_custom_strategy fnRepr callResult =
      Except.error (PyError.userStrategyError fnRepr) := by
  cases callResult with
  | error e => rfl
  | ok v =>
      cases v with
      | pyList xs =>
          simp only [claimBadReturn, Bool.not_eq_true'] at h
          cases hps : xs.all PyRetElem.isParamSet with
          | true =>
              exact absurd (all_paramSet_imp_all_psOrMap xs hps) (by simp [h])
          | false =>
              simp [_make_sanitized_custom_strategy, hps]
      | pySeq xs => rfl
      | nonSeq => rfl

/-- Witness for C4 at a concrete input: a user strategy that raises a
`ZeroDivisionError` is re-raised as `UserStrategyError`. -/
theorem c4_sanitizer_raises_user_strategy_error_witness :
    claimBadReturn (Except.error "ZeroDivisionError") = true ∧
    _make_sanitized_custom_strategy "f" (Except.error "ZeroDivisionError") =
      Except.error (PyError.userStrategyError "f") :=
  ⟨rfl, c4_sanitizer_raises_user_strategy_error "f"
    (Except.error "ZeroDivisionError") rfl⟩

/-- Helper: looking a key up in a registry that did not previously contain
it, after appending it, finds the newly registered entry. -/
theorem lookup_append_fresh {α : Type} (reg : List (String × α))
    (name : String) (fn : α)
    (h : (reg.map Prod.fst).contains name = false) :
    (reg ++ [(name, fn)]).lookup name = some fn := by
  induction reg with
  | nil => simp [List.lookup]
  | cons kv rest ih =>
      simp only [List.map_cons, List.contains_cons, Bool.or_eq_false_iff] at h
      simp [List.lookup, h.1, ih h.2]

/-- C9: registering a strategy under an already-registered name fails on the
second `_register` call with the duplicate-strategy `ValueError`, raised
before any mutation, so the first registration is still the one found in
the registry. -/
theorem c9_duplicate_registration_fails_and_preserves_first {α : Type}
    (reg reg' : List (String × α)) (name : String) (fn fn' : α)
    (h : _register name fn reg = Except.ok reg') :
    _register name fn' reg' =
        Except.error (PyError.duplicateStrategyError name) ∧
      reg'.lookup name = some fn := by
  unfold _register at h
  by_cases hc : (reg.map Prod.fst).contains name
  · rw [if_pos hc] at h
    exact absurd h (by simp)
  · rw [if_neg hc] at h
    have hreg' := Except.ok.inj h
    subst hreg'
    refine ⟨?_, lookup_append_fresh reg name fn (by simpa using hc)⟩
    unfold _register
    rw [if_pos (by simp)]

/-- Witness for C9 at a concrete input: registering all_perm twice. -/
theorem c9_duplicate_registration_witness :
    _register "all_perm" (0 : Nat) [] = Except.ok [("all_perm", 0)] ∧
    (_register "all_perm" (1 : Nat) [("all_perm", 0)] =
        Except.error (PyError.duplicateStrategyError "all_perm") ∧
      [("all_perm", (0 : Nat))].lookup "all_perm" = some 0) :=
  ⟨rfl, c9_duplicate_registration_fails_and_preserves_first []
    [("all_perm", 0)] "all_perm" 0 1 rfl⟩

/-- C6: replication repeats every parameter set contiguously: for `k`
parameter sets and `r` replicas the replicated sequence has length `r * k`
and its `i`-th member is the `i / r`-th parameter set, so the output is `k`
contiguous runs of `r` and `r = 0` yields nothing. -/
theorem c6_replication_contiguous_runs (r : Nat) (ps : List ParamSet) :
    (replicateParamSets r ps).length = r * ps.length ∧
    ∀ i, i < r * ps.length →
      (replicateParamSets r ps)[i]? = ps[i / r]? := by
  constructor
  · induction ps with
    | nil => simp [replicateParamSets]
    | cons p rest ih =>
        simp only [replicateParamSets, List.map_cons, List.flatten_cons,
          List.length_append, List.length_replicate, List.length_cons] at ih ⊢
        rw [ih]
        ring
  · intro i hi
    induction ps generalizing i with
    | nil => simp at hi
    | cons p rest ih =>
        rcases Nat.eq_zero_or_pos r with h0 | hr
        · subst h0; simp at hi
        have hsplit : replicateParamSets r (p :: rest) =
            List.replicate r p ++ replicateParamSets r rest := by
          simp [replicateParamSets]
        rw [hsplit, List.getElem?_append, List.length_replicate]
        by_cases hcase : i < r
        · rw [if_pos hcase, Nat.div_eq_of_lt hcase]
          simp [List.getElem?_replicate, hcase]
        · have hge : r ≤ i := Nat.le_of_not_lt hcase
          rw [if_neg hcase]
          have hmul : r * (rest.length + 1) = r * rest.length + r :=
            Nat.mul_succ r rest.length
          have hi' : i - r < r * rest.length := by
            simp only [List.length_cons] at hi
            omega
          have ihx := ih (i - r) hi'
          rw [ihx]
          have hdiv : i / r = (i - r) / r + 1 := by
            have := Nat.add_div_right (i - r) hr
            rw [Nat.sub_add_cancel hge] at this
            omega
          rw [hdiv]
          simp

/-- A concrete parameter set used in witnesses. -/
def psA : ParamSet := ParamSet.mk (some [("SPAM", "a")]) none

/-- A concrete parameter set used in witnesses. -/
def psB : ParamSet := ParamSet.mk (some [("SPAM", "b")]) none

/-- Witness for C6 at a concrete input: two parameter sets, two replicas,
member 3 is the 3/2-th parameter set. -/
theorem c6_replication_contiguous_runs_witness :
    (replicateParamSets 2 [psA, psB]).length = 2 * [psA, psB].length ∧
    (replicateParamSets 2 [psA, psB])[3]? = [psA, psB][3 / 2]? :=
  ⟨(c6_replication_contiguous_runs 2 [psA, psB]).1,
    (c6_replication_contiguous_runs 2 [psA, psB]).2 3 (by decide)⟩

/-- Helper: the member produced at offset `i` of `bindMembersAux` starting
at index `k` is the `i`-th parameter set, bound at sequential index
`k + i`. -/
theorem bindMembersAux_getElem? (ensName : String) (pss : List ParamSet)
    (k i : Nat) :
    (bindMembersAux ensName k pss)[i]? = pss[i]?.map fun ps =>
      MemberApp.mk (ensName ++ "-" ++ toString (k + i)) ps.params ps.exe_args
        (k + i) := by
  induction pss generalizing k i with
  | nil => simp [bindMembersAux]
  | cons p rest ih =>
      cases i with
      | zero => simp [bindMembersAux]
      | succ j =>
          simp only [bindMembersAux, List.getElem?_cons_succ]
          rw [ih (k + 1) j]
          have : k + 1 + j = k + (j + 1) := by omega
          rw [this]

/-- C5: any two distinct members produced by the (spec-modelled) binding
stage occupy distinct storage (`storeId`), and when they are derived from
the same `ParamSet` their parameter data are value-equal: deep, independent
copies, never shared mutable storage. -/
theorem c5_members_value_equal_identity_distinct (ensName : String)
    (pss : List ParamSet) (i j : Nat) (mi mj : MemberApp)
    (hi : (bindMembers ensName pss)[i]? = some mi)
    (hj : (bindMembers ensName pss)[j]? = some mj) (hij : i ≠ j) :
    mi.storeId ≠ mj.storeId ∧
      (pss[i]? = pss[j]? →
        mi.params = mj.params ∧ mi.params_as_args = mj.params_as_args) := by
  rw [bindMembers, bindMembersAux_getElem?] at hi hj
  cases hpi : pss[i]? with
  | none => rw [hpi] at hi; exact absurd hi (by simp)
  | some pi =>
      cases hpj : pss[j]? with
      | none => rw [hpj] at hj; exact absurd hj (by simp)
      | some pj =>
          rw [hpi, Option.map_some'] at hi
          rw [hpj, Option.map_some'] at hj
          obtain rfl := Option.some.inj hi
          obtain rfl := Option.some.inj hj
          refine ⟨by simpa using hij, ?_⟩
          intro heq
          obtain rfl := Option.some.inj heq
          exact ⟨rfl, rfl⟩

/-- Witness for C5 at a concrete input: two members bound from the same
parameter set repeated twice. -/
theorem c5_members_value_equal_identity_distinct_witness :
    (MemberApp.mk "e-0" psA.params psA.exe_args 0).storeId ≠
        (MemberApp.mk "e-1" psA.params psA.exe_args 1).storeId ∧
      ([psA, psA][0]? = [psA, psA][1]? →
        (MemberApp.mk "e-0" psA.params psA.exe_args 0).params =
            (MemberApp.mk "e-1" psA.params psA.exe_args 1).params ∧
          (MemberApp.mk "e-0" psA.params psA.exe_args 0).params_as_args =
            (MemberApp.mk "e-1" psA.params psA.exe_args 1).params_as_args) :=
  c5_members_value_equal_identity_distinct "e" [psA, psA] 0 1
    (MemberApp.mk "e-0" psA.params psA.exe_args 0)
    (MemberApp.mk "e-1" psA.params psA.exe_args 1)
    (by decide) (by decide) (by decide)

/-- Helper: the number of stepped assignments of one axis is the length of
the Python `zip(*space.values())`. -/
theorem stepDicts_length (d : α) (space : List (String × List α)) :
    (stepDicts d space).length = pyZipLen (space.map Prod.snd) := by
  simp [stepDicts]

/-- Helper: `itertools.zip_longest` pads to the longer of its inputs. -/
theorem zipLongest_length (l1 : List α) (l2 : List β) :
    (zipLongest l1 l2).length = max l1.length l2.length := by
  induction l1 generalizing l2 with
  | nil => simp [zipLongest]
  | cons a as ih =>
      cases l2 with
      | nil =>
          simp only [zipLongest, List.length_cons, ih]
          simp
      | cons b bs =>
          simp only [zipLongest, List.length_cons, ih]
          omega

/-- C7 counterexample: axes with stepped lengths 2 and 3 at budget 30.  The
claim says the count is the minimum value-sequence length (2); the code
pairs the axes with `itertools.zip_longest`, so the count is 3. -/
theorem c7_step_min_length_counterexample :
    (step_values [("A", ["1", "2"])] [("E", [["x"], ["y"], ["z"]])] 30).map
        List.length = Except.ok 3 ∧
      (step_values [("A", ["1", "2"])] [("E", [["x"], ["y"], ["z"]])] 30).map
        List.length ≠ Except.ok 2 := by
  refine ⟨rfl, fun h => ?_⟩
  have h3 : (step_values [("A", ["1", "2"])] [("E", [["x"], ["y"], ["z"]])]
      30).map List.length = Except.ok 3 := rfl
  rw [h] at h3
  exact absurd (Except.ok.inj h3) (by omega)

/-- C7 (amended): for every pair of parameter spaces and every positive
budget, `step_values` never raises, and its count is the budget-capped
MAXIMUM of the two axes' stepped lengths (each axis's stepped length being
the minimum of its value-sequence lengths, 0 for an empty mapping): the
shorter axis is `None`-padded by `zip_longest`, not truncated to. -/
theorem c7_step_count_amended (params : FileSpace) (exe_args : ExeSpace)
    (n : Int) (hn : 0 < n) :
    ∃ l, step_values params exe_args n = Except.ok l ∧
      l.length = min n.toNat
        (max (pyZipLen (params.map Prod.snd))
          (pyZipLen (exe_args.map Prod.snd))) := by
  unfold step_values pyIslice
  rw [if_neg (by omega : ¬ n < 0)]
  refine ⟨_, rfl, ?_⟩
  simp only [List.length_take, List.length_map, zipLongest_length, pySliceTo,
    if_pos (by omega : (0 : Int) ≤ n), stepDicts_length]
  omega

/-- Witness for C7 at a concrete input: the 2x2/2x2 scenario at budget 30
steps to 2 parameter sets. -/
theorem c7_step_count_amended_witness :
    ∃ l, step_values spamEggsParams exeArgsSpace 30 = Except.ok l ∧
      l.length = min (30 : Int).toNat
        (max (pyZipLen (spamEggsParams.map Prod.snd))
          (pyZipLen (exeArgsSpace.map Prod.snd))) :=
  c7_step_count_amended spamEggsParams exeArgsSpace 30 (by decide)

end SmartSim
